import Mathlib

/-!
Shallow embedding of the surface-rl-decoder core
(`src/surface_rl_decoder/surface_code.py`, `src/distributed/learner_util.py`,
`src/distributed/actor.py`) together with theorems settling the frozen claims.

Conventions of the embedding:
* numpy `uint8` grids are embedded as total functions `ℕ → ℕ → ℕ`; every
  theorem quantifies only over in-range indices, matching the fixed array
  shapes of the source.
* `np.random.uniform(0, 1, shape)` draws are passed in explicitly as a
  function from sites to ℚ; `np.random.randint(1, 4, shape)` draws are
  passed as a function from sites to ℕ (its codomain guarantee `1 ≤ v < 4`
  becomes a hypothesis where it matters).
* fallible code (assertions, numpy shape errors) is embedded with `Except`.
* The module `surface_rl_decoder/syndrome_masks.py` is imported by the
  sources but is not part of the repository snapshot; the masks are kept
  abstract (arbitrary binary site masks) wherever possible, and a concrete
  instance for code distance 3 is modelled from the spec where a concrete
  mask is unavoidable.
-/

/-- Qubit / syndrome slice: a 2-d `uint8` numpy array, embedded as a total
function on coordinates.  Only indices inside the array's shape are ever
referred to by the theorems. -/
def Grid : Type := ℕ → ℕ → ℕ

/-- A stack of slices (`(h, d, d)` numpy array), time-major, oldest layer at
index 0. -/
def Stack : Type := ℕ → Grid

/-- Embedding of `rule_table` from `SurfaceCode.__init__`
(`surface_code.py:128-130`): the 4×4 Pauli composition table
`([0,1,2,3],[1,0,3,2],[2,3,0,1],[3,2,1,0])`, identity = 0, X = 1, Y = 2,
Z = 3.  Out-of-range indices are a runtime `IndexError` in the source; the
embedding returns the `getD` default 0 there and no theorem relies on that
region. -/
def rule_table (a b : ℕ) : ℕ :=
  match a, b with
  | 0, 0 => 0 | 0, 1 => 1 | 0, 2 => 2 | 0, 3 => 3
  | 1, 0 => 1 | 1, 1 => 0 | 1, 2 => 3 | 1, 3 => 2
  | 2, 0 => 2 | 2, 1 => 3 | 2, 2 => 0 | 2, 3 => 1
  | 3, 0 => 3 | 3, 1 => 2 | 3, 2 => 1 | 3, 3 => 0
  | _, _ => 0

/-- Embedding of `np.pad(qubits, ((0,0),(1,0),(1,0)), "constant", constant_values=0)`
(`surface_code.py:457`): one zero row above and one zero column to the left
of every slice. -/
def padStack (q : Stack) : Stack :=
  fun t i j => if i = 0 ∨ j = 0 then 0 else q t (i - 1) (j - 1)

/-- Embedding of `(qubits == v).astype(np.uint8)` (`surface_code.py:459-461`): the 0/1
indicator plane of operator `v`. -/
def planeIndicator (v : ℕ) (q : Stack) : Stack :=
  fun t i j => if q t i j = v then 1 else 0

/-- Embedding of `np.roll(f, -1, axis=1)` on an `(h, n, n)` array
(`surface_code.py:466-476`): row `i` of the result is row `(i+1) % n` of the
input (toroidal shift). -/
def rollUp (n : ℕ) (f : Stack) : Stack :=
  fun t i j => f t ((i + 1) % n) j

/-- Embedding of `np.roll(f, -1, axis=2)` on an `(h, n, n)` array
(`surface_code.py:466-476`): column `j` of the result is column `(j+1) % n`
of the input (toroidal shift). -/
def rollLeft (n : ℕ) (f : Stack) : Stack :=
  fun t i j => f t i ((j + 1) % n)

/-- Embedding of `SurfaceCode.create_syndrome_output_stack` (`surface_code.py:437-501`),
for code distance `d` and binary site masks `vm` (vertex) / `pm`
(plaquette); the source tiles the same 2-d mask over every layer, so the
masks are slice functions here.  The four accumulation statements of the
source are one sum here, followed by the final `% 2`. -/
def create_syndrome_output_stack (d : ℕ) (vm pm : Grid) (q : Stack) : Stack :=
  fun t i j =>
    let n := d + 1
    let p := padStack q
    let x := planeIndicator 1 p
    let y := planeIndicator 2 p
    let z := planeIndicator 3 p
    ((x t i j + rollUp n x t i j + rollLeft n x t i j + rollLeft n (rollUp n x) t i j) * vm i j
      + (y t i j + rollUp n y t i j + rollLeft n y t i j + rollLeft n (rollUp n y) t i j) * vm i j
      + (z t i j + rollUp n z t i j + rollLeft n z t i j + rollLeft n (rollUp n z) t i j) * pm i j
      + (y t i j + rollUp n y t i j + rollLeft n y t i j + rollLeft n (rollUp n y) t i j) * pm i j)
      % 2

/-- Zero-fill shift towards low row indices on an `(·, n, n)` stack: the "up"
neighbor `i+1` when it exists, `0` past the high edge (never wrapping). -/
def shiftUpZ (n : ℕ) (f : Stack) : Stack :=
  fun t i j => if i + 1 < n then f t (i + 1) j else 0

/-- Zero-fill shift towards low column indices: the "left" neighbor `j+1`
when it exists, `0` past the high edge (never wrapping). -/
def shiftLeftZ (n : ℕ) (f : Stack) : Stack :=
  fun t i j => if j + 1 < n then f t i (j + 1) else 0

/-- The per-plane sum named by the spec: the site's own value plus its up,
left and up-left neighbors (the source's shift naming), with zero-fill at the
high edge. -/
def planeSum (n : ℕ) (f : Stack) (t i j : ℕ) : ℕ :=
  f t i j + shiftUpZ n f t i j + shiftLeftZ n f t i j + shiftLeftZ n (shiftUpZ n f) t i j

/-- The syndrome value the spec describes (claim C1): pad the qubit grid with
one zero row/column on the low side, and at each site take, modulo 2, the
zero-fill neighborhood sum of the X and Y planes at vertex sites and of the
Z and Y planes at plaquette sites. -/
def syndromeSpec (d : ℕ) (vm pm : Grid) (q : Stack) : Stack :=
  fun t i j =>
    let n := d + 1
    let p := padStack q
    let x := planeIndicator 1 p
    let y := planeIndicator 2 p
    let z := planeIndicator 3 p
    ((if vm i j ≠ 0 then planeSum n x t i j + planeSum n y t i j else 0)
      + (if pm i j ≠ 0 then planeSum n z t i j + planeSum n y t i j else 0)) % 2

lemma rule_table_le_three (a b : ℕ) : rule_table a b ≤ 3 := by
  rcases a with _ | _ | _ | _ | a <;> rcases b with _ | _ | _ | _ | b <;>
    first
    | decide
    | exact Nat.zero_le 3

/-- The padded stack vanishes on its first row. -/
lemma padStack_row0 (q : Stack) (t j : ℕ) : padStack q t 0 j = 0 := by
  simp [padStack]

/-- The padded stack vanishes on its first column. -/
lemma padStack_col0 (q : Stack) (t i : ℕ) : padStack q t i 0 = 0 := by
  simp [padStack]

/-- For a plane whose row 0 is identically zero, the toroidal up-shift agrees
with the zero-fill up-shift at every in-range row. -/
lemma rollUp_eq_shiftUpZ (n : ℕ) (f : Stack) (h0 : ∀ t j, f t 0 j = 0)
    (t i j : ℕ) (hi : i < n) : rollUp n f t i j = shiftUpZ n f t i j := by
  unfold rollUp shiftUpZ
  rcases Nat.lt_or_ge (i + 1) n with h | h
  · rw [Nat.mod_eq_of_lt h, if_pos h]
  · have hn : i + 1 = n := le_antisymm (by omega) h
    have : (i + 1) % n = 0 := by rw [hn]; exact Nat.mod_self n
    rw [this, if_neg (by omega), h0]

/-- For a plane whose column 0 is identically zero, the toroidal left-shift
agrees with the zero-fill left-shift at every in-range column. -/
lemma rollLeft_eq_shiftLeftZ (n : ℕ) (f : Stack) (h0 : ∀ t i, f t i 0 = 0)
    (t i j : ℕ) (hj : j < n) : rollLeft n f t i j = shiftLeftZ n f t i j := by
  unfold rollLeft shiftLeftZ
  rcases Nat.lt_or_ge (j + 1) n with h | h
  · rw [Nat.mod_eq_of_lt h, if_pos h]
  · have hn : j + 1 = n := le_antisymm (by omega) h
    have : (j + 1) % n = 0 := by rw [hn]; exact Nat.mod_self n
    rw [this, if_neg (by omega), h0]

/-- Indicator planes of nonzero operators inherit the padded zero row. -/
lemma planeIndicator_pad_row0 (v : ℕ) (hv : v ≠ 0) (q : Stack) (t j : ℕ) :
    planeIndicator v (padStack q) t 0 j = 0 := by
  simp [planeIndicator, padStack_row0]
  omega

/-- Indicator planes of nonzero operators inherit the padded zero column. -/
lemma planeIndicator_pad_col0 (v : ℕ) (hv : v ≠ 0) (q : Stack) (t i : ℕ) :
    planeIndicator v (padStack q) t i 0 = 0 := by
  simp [planeIndicator, padStack_col0]
  omega

/-- The toroidal neighborhood sum used by the source coincides with the
zero-fill neighborhood sum of the spec, for indicator planes of a nonzero
operator over the padded grid. -/
lemma neighborhood_roll_eq_planeSum (d v : ℕ) (hv : v ≠ 0) (q : Stack)
    (t i j : ℕ) (hi : i < d + 1) (hj : j < d + 1) :
    (planeIndicator v (padStack q)) t i j
      + rollUp (d + 1) (planeIndicator v (padStack q)) t i j
      + rollLeft (d + 1) (planeIndicator v (padStack q)) t i j
      + rollLeft (d + 1) (rollUp (d + 1) (planeIndicator v (padStack q))) t i j
    = planeSum (d + 1) (planeIndicator v (padStack q)) t i j := by
  have hrow : ∀ t j, planeIndicator v (padStack q) t 0 j = 0 :=
    planeIndicator_pad_row0 v hv q
  have hcol : ∀ t i, planeIndicator v (padStack q) t i 0 = 0 :=
    planeIndicator_pad_col0 v hv q
  have hcol' : ∀ t i, rollUp (d + 1) (planeIndicator v (padStack q)) t i 0 = 0 := by
    intro t' i'
    unfold rollUp
    exact hcol t' _
  unfold planeSum
  rw [rollUp_eq_shiftUpZ _ _ hrow _ _ _ hi,
      rollLeft_eq_shiftLeftZ _ _ hcol _ _ _ hj,
      rollLeft_eq_shiftLeftZ _ _ hcol' _ _ _ hj]
  congr 1
  unfold shiftLeftZ shiftUpZ rollUp
  rcases Nat.lt_or_ge (j + 1) (d + 1) with h | h
  · rw [if_pos h, if_pos h]
    rcases Nat.lt_or_ge (i + 1) (d + 1) with h' | h'
    · rw [Nat.mod_eq_of_lt h', if_pos h']
    · have hn : i + 1 = d + 1 := le_antisymm (by omega) h'
      rw [hn, Nat.mod_self, if_neg (by omega), hrow]
  · rw [if_neg (by omega), if_neg (by omega)]

/-- C1: at every in-range site, `create_syndrome_output_stack` equals the
spec's padded zero-fill parity formula, for arbitrary binary site masks. -/
theorem create_syndrome_output_stack_eq_spec (d : ℕ) (vm pm : Grid) (q : Stack)
    (hvm : ∀ i j, vm i j ≤ 1) (hpm : ∀ i j, pm i j ≤ 1)
    (t i j : ℕ) (hi : i < d + 1) (hj : j < d + 1) :
    create_syndrome_output_stack d vm pm q t i j = syndromeSpec d vm pm q t i j := by
  unfold create_syndrome_output_stack syndromeSpec
  simp only
  rw [neighborhood_roll_eq_planeSum d 1 (by omega) q t i j hi hj,
      neighborhood_roll_eq_planeSum d 2 (by omega) q t i j hi hj,
      neighborhood_roll_eq_planeSum d 3 (by omega) q t i j hi hj]
  congr 1
  have hv1 : vm i j = 0 ∨ vm i j = 1 := by have := hvm i j; omega
  have hp1 : pm i j = 0 ∨ pm i j = 1 := by have := hpm i j; omega
  rcases hv1 with hv | hv <;> rcases hp1 with hp | hp <;>
    simp [hv, hp] <;> ring

/-- C4: the composition table is symmetric, has 0 as identity, every label is
self-inverse, and X∘Z = Y (`table[1][3] = 2`). -/
theorem rule_table_group_properties :
    (∀ a b : Fin 4, rule_table a b = rule_table b a)
    ∧ (∀ a : Fin 4, rule_table a 0 = a)
    ∧ (∀ a : Fin 4, rule_table a a = 0)
    ∧ rule_table 1 3 = 2 := by
  decide

/-- Modelled from the spec: the module `surface_rl_decoder/syndrome_masks.py`
(imported at `surface_code.py:6`) is not under `src/`.  Following the spec's
"two interleaved sublattices of the syndrome grid sensitive to different
error types" and the rotated surface code at code distance 3 (a 4×4 syndrome
grid holding the d²−1 = 8 stabilizer sites), the vertex sites sit on the even
sublattice `i+j` even: two bulk sites and one half-stabilizer each on the top
and bottom boundary rows.  Corners and the remaining boundary sites carry no
stabilizer and are unmasked. -/
def vertex_mask_d3 : Grid := fun i j =>
  if (i = 0 ∧ j = 2) ∨ (i = 1 ∧ j = 1) ∨ (i = 2 ∧ j = 2) ∨ (i = 3 ∧ j = 1) then 1 else 0

/-- Modelled from the spec (see `vertex_mask_d3`): the plaquette sites sit on
the odd sublattice `i+j` odd: two bulk sites and one half-stabilizer each on
the left and right boundary columns. -/
def plaquette_mask_d3 : Grid := fun i j =>
  if (i = 1 ∧ j = 0) ∨ (i = 1 ∧ j = 2) ∨ (i = 2 ∧ j = 1) ∨ (i = 2 ∧ j = 3) then 1 else 0

/-- A single Pauli-X error at qubit (1,1) of the oldest slice. -/
def exampleQubitStack : Stack := fun t i j =>
  if t = 0 ∧ i = 1 ∧ j = 1 then 1 else 0

/-- Witness for C1: the roll-based source computation and the spec's
zero-fill parity formula agree at a concrete site of a concrete stack. -/
theorem create_syndrome_output_stack_eq_spec_witness :
    create_syndrome_output_stack 3 vertex_mask_d3 plaquette_mask_d3 exampleQubitStack 0 1 1
      = syndromeSpec 3 vertex_mask_d3 plaquette_mask_d3 exampleQubitStack 0 1 1 :=
  create_syndrome_output_stack_eq_spec 3 vertex_mask_d3 plaquette_mask_d3 exampleQubitStack
    (by intro i j; unfold vertex_mask_d3; split <;> omega)
    (by intro i j; unfold plaquette_mask_d3; split <;> omega)
    0 1 1 (by omega) (by omega)

/-- The paired row-major coordinates of the nonzero entries of a `(d, d)`
slice: what `np.where(base_error != 0)` returns as a pair of coordinate
arrays (`surface_code.py:296`). -/
def nonzeroCoords (d : ℕ) (g : Grid) : List (ℕ × ℕ) :=
  (List.range d).flatMap
    (fun r => (List.range d).filterMap (fun c => if g r c ≠ 0 then some (r, c) else none))

/-- One execution of the loop body
`new_error[row, col] = rule_table[old_operator, new_error[row, col]]` with
`old_operator = base_error[row, col]` (`surface_code.py:301-304`). -/
def composeAt (base g : Grid) (r c : ℕ) : Grid :=
  fun i j => if i = r ∧ j = c then rule_table (base r c) (g r c) else g i j

/-- The nested loop `for row in nonzero_idx[0]: for col in nonzero_idx[1]:`
(`surface_code.py:299-304`).  Note the source iterates the CARTESIAN PRODUCT
of the two coordinate arrays returned by `np.where`, so a cell `(r, c)` is
updated once per pair of a nonzero entry in row `r` and a nonzero entry in
column `c`. -/
def combineLayer (d : ℕ) (base fresh : Grid) : Grid :=
  let nz := nonzeroCoords d base
  let rows := nz.map Prod.fst
  let cols := nz.map Prod.snd
  rows.foldl (fun g r => cols.foldl (fun g c => composeAt base g r c) g) fresh

/-- Embedding of `SurfaceCode.generate_qubit_error_stack` (`surface_code.py:268-309`),
layer by layer: `errors t` is the slice freshly sampled by
`generate_qubit_error` for layer `t` (the randomness is passed in as the
sequence of sampled slices), layer 0 is the base error, and each later layer
is the source's where-loop combination of the previous layer with the fresh
slice.  The `(h, d, d)` stack of the source is the restriction of this
stream to `t < h`. -/
def generate_qubit_error_stack (d : ℕ) (errors : ℕ → Grid) : ℕ → Grid
  | 0 => errors 0
  | t + 1 => combineLayer d (generate_qubit_error_stack d errors t) (errors (t + 1))

/-- Fresh error slices for the C2 failing input: the base slice (layer 0)
has X errors at (0,0) and (0,1) of a 2×2 grid; the layer-1 fresh slice is
error free. -/
def c2Errors : ℕ → Grid := fun t i j =>
  if t = 0 ∧ i = 0 ∧ (j = 0 ∨ j = 1) then 1 else 0

/-- C2, evaluation at the failing input: with two inherited errors in one
row, the Cartesian-product loop composes cell (0,0) twice (once per
coordinate pair), the X error cancels against itself, and layer 1 keeps
nothing at (0,0) — while the claimed per-site composition law demands
`rule_table[layer0(0,0), fresh(0,0)] = rule_table[1, 0] = 1`. -/
theorem generate_qubit_error_stack_cartesian_bug :
    generate_qubit_error_stack 2 c2Errors 1 0 0 = 0
    ∧ generate_qubit_error_stack 2 c2Errors 0 0 0 = 1
    ∧ rule_table (generate_qubit_error_stack 2 c2Errors 0 0 0) (c2Errors 1 0 0) = 1 := by
  decide

lemma composeAt_le_three (base g : Grid) (r c : ℕ) (hg : ∀ i j, g i j ≤ 3) :
    ∀ i j, composeAt base g r c i j ≤ 3 := by
  intro i j
  unfold composeAt
  split
  · exact rule_table_le_three _ _
  · exact hg i j

lemma foldl_cols_le_three (base : Grid) (r : ℕ) (cols : List ℕ) :
    ∀ g : Grid, (∀ i j, g i j ≤ 3) →
      ∀ i j, (cols.foldl (fun g c => composeAt base g r c) g) i j ≤ 3 := by
  induction cols with
  | nil => intro g hg i j; exact hg i j
  | cons c cs ih =>
      intro g hg i j
      exact ih (composeAt base g r c) (composeAt_le_three base g r c hg) i j

lemma foldl_rows_le_three (base : Grid) (cols : List ℕ) (rows : List ℕ) :
    ∀ g : Grid, (∀ i j, g i j ≤ 3) →
      ∀ i j, (rows.foldl (fun g r => cols.foldl (fun g c => composeAt base g r c) g) g) i j ≤ 3 := by
  induction rows with
  | nil => intro g hg i j; exact hg i j
  | cons r rs ih =>
      intro g hg i j
      exact ih _ (fun i' j' => foldl_cols_le_three base r cols g hg i' j') i j

lemma combineLayer_le_three (d : ℕ) (base fresh : Grid)
    (hf : ∀ i j, fresh i j ≤ 3) : ∀ i j, combineLayer d base fresh i j ≤ 3 := by
  intro i j
  unfold combineLayer
  exact foldl_rows_le_three base _ _ fresh hf i j

/-- Embedding of `generate_qubit_X_error` (`surface_code.py:168-184`): Bernoulli X errors;
`u` is the `np.random.uniform(0, 1, (d, d))` draw. -/
def generate_qubit_X_error (p : ℚ) (u : ℕ → ℕ → ℚ) : Grid :=
  fun i j => if u i j < p then 1 else 0

/-- Embedding of `generate_qubit_IIDXZ_error` (`surface_code.py:186-217`): independent
Bernoulli X and Z masks; where both fire the sum 4 is rewritten to Y = 2. -/
def generate_qubit_IIDXZ_error (p : ℚ) (u1 u2 : ℕ → ℕ → ℚ) : Grid :=
  fun i j =>
    let x_err := 1 * (if u1 i j < p then 1 else 0)
    let z_err := 3 * (if u2 i j < p then 1 else 0)
    let err := x_err + z_err
    if err > 3 then 2 else err

/-- Embedding of `generate_qubit_DP_error` (`surface_code.py:219-242`): Bernoulli
occurrence mask times a uniform operator choice `ch` drawn by
`np.random.randint(1, 4, (d, d))` (so `1 ≤ ch i j < 4`). -/
def generate_qubit_DP_error (p : ℚ) (u : ℕ → ℕ → ℚ) (ch : ℕ → ℕ → ℕ) : Grid :=
  fun i j => (if u i j < p then 1 else 0) * ch i j

/-- C10: every operation keeps qubit-grid entries in the label set
{0,1,2,3}: each error generator produces only such values (for the
depolarizing channel, under the `randint(1, 4)` codomain guarantee), the
rule table maps label pairs to labels, and stacking errors through time
preserves the invariant. -/
theorem qubit_grid_entries_in_pauli_labels :
    (∀ p u i j, generate_qubit_X_error p u i j ≤ 3)
    ∧ (∀ p u1 u2 i j, generate_qubit_IIDXZ_error p u1 u2 i j ≤ 3)
    ∧ (∀ p u ch, (∀ i j, 1 ≤ ch i j ∧ ch i j < 4) →
        ∀ i j, generate_qubit_DP_error p u ch i j ≤ 3)
    ∧ (∀ a b, a ≤ 3 → b ≤ 3 → rule_table a b ≤ 3)
    ∧ (∀ d errors, (∀ t i j, errors t i j ≤ 3) →
        ∀ t i j, generate_qubit_error_stack d errors t i j ≤ 3) := by
  refine ⟨?_, ?_, ?_, ?_, ?_⟩
  · intro p u i j
    unfold generate_qubit_X_error
    split <;> omega
  · intro p u1 u2 i j
    unfold generate_qubit_IIDXZ_error
    split_ifs <;> decide
  · intro p u ch hch i j
    unfold generate_qubit_DP_error
    have := hch i j
    split <;> omega
  · intro a b _ _
    exact rule_table_le_three a b
  · intro d errors herr t
    induction t with
    | zero => exact herr 0
    | succ t ih =>
        intro i j
        exact combineLayer_le_three d _ _ (herr (t + 1)) i j

/-- Witness for C10: the hypotheses of the depolarizing-channel and
stack-propagation conjuncts hold at concrete inputs. -/
theorem qubit_grid_entries_in_pauli_labels_witness :
    generate_qubit_DP_error (1/2) (fun _ _ => 0) (fun _ _ => 3) 0 0 ≤ 3
    ∧ generate_qubit_error_stack 2 c2Errors 1 0 1 ≤ 3 :=
  ⟨qubit_grid_entries_in_pauli_labels.2.2.1 (1/2) (fun _ _ => 0) (fun _ _ => 3)
      (fun i j => by norm_num) 0 0,
    qubit_grid_entries_in_pauli_labels.2.2.2.2 2 c2Errors
      (by intro t i j; unfold c2Errors; split <;> omega) 1 0 1⟩

/-- Python runtime failures raised by the embedded code paths. -/
inductive PyError where
  | assertionError
  | valueError
  | unboundLocalError
  | blockedOnEmptyQueue
deriving DecidableEq

/-- Embedding of `SurfaceCode.create_syndrome_output` (`surface_code.py:369-435`) as
invoked by `step` on the full `(h, d, d)` qubit stack (`surface_code.py:160`).
On a 3-d input the source first asserts `qubits.shape[0] == 1`
(`surface_code.py:385-387`), which fails whenever the stack depth is not 1;
for depth 1 the subsequent `np.pad(qubits, ((1, 0), (1, 0)), ...)`
(`surface_code.py:390`) raises a `ValueError`, because the 2-axis pad width
cannot be broadcast to the 3 axes of the array.  Either way the call raises
on a stack, so the embedding returns the error branch that fires. -/
def create_syndrome_output_of_stack (h : ℕ) (q : Stack) : Except PyError Grid :=
  if h = 1 then Except.error PyError.valueError
  else Except.error PyError.assertionError

/-- Embedding of `SurfaceCode.step` (`surface_code.py:134-166`) for stack depth `h`:
composes the action operator `op` onto qubit `(row, col)` of every layer via
`rule_table` (`surface_code.py:155-159`), then recomputes the state by
calling the single-slice `create_syndrome_output` on the 3-d qubit stack
(`surface_code.py:160`). -/
def step (h : ℕ) (q : Stack) (row col op : ℕ) : Except PyError (Stack × Grid) :=
  let qubits' : Stack :=
    fun t i j => if i = row ∧ j = col then rule_table (q t i j) op else q t i j
  match create_syndrome_output_of_stack h qubits' with
  | Except.error e => Except.error e
  | Except.ok s => Except.ok (qubits', s)

/-- C3, evaluation at the failing input: `step` never returns a recomputed
syndrome stack, because it hands the `(h, d, d)` qubit stack to the
single-slice syndrome routine: the shape assertion fires for h = 2 (and any
h ≠ 1), and `np.pad` raises for h = 1. -/
theorem step_raises_instead_of_returning_syndrome :
    step 2 (fun _ _ _ => 0) 1 1 1 = Except.error PyError.assertionError
    ∧ step 1 (fun _ _ _ => 0) 1 1 1 = Except.error PyError.valueError :=
  ⟨rfl, rfl⟩

/-- Embedding of `SurfaceCode.generate_measurement_error` (`surface_code.py:311-339`), one
slice: `u` is the `np.random.uniform` draw and the flip mask is the Bernoulli
mask multiplied by `plaquette_mask + vertex_mask`; where the mask is positive
the true syndrome bit is replaced by `1 - bit` (numpy uint8 arithmetic, i.e.
modulo 256), elsewhere the input value passes through. -/
def generate_measurement_error (vm pm : Grid) (p_msmt : ℚ) (u : ℕ → ℕ → ℚ)
    (true_syndrome : Grid) : Grid :=
  fun i j =>
    let error_mask := (if u i j < p_msmt then 1 else 0) * (pm i j + vm i j)
    if error_mask > 0 then (1 + 256 - true_syndrome i j % 256) % 256
    else true_syndrome i j

/-- Counterexample to C5: site (0,0) is unmasked by both modelled masks, yet
for the input syndrome that is 1 there the returned faulty syndrome is 1 at
(0,0) — not 0 — even though the flip draw fires everywhere (p_msmt = 1,
u = 0): the source passes unmasked sites through unchanged instead of
zeroing them. -/
theorem generate_measurement_error_unmasked_not_zeroed :
    vertex_mask_d3 0 0 = 0
    ∧ plaquette_mask_d3 0 0 = 0
    ∧ generate_measurement_error vertex_mask_d3 plaquette_mask_d3 1
        (fun _ _ => 0) (fun _ _ => 1) 0 0 = 1 := by
  decide

/-- C5 amended: the flip only ever happens at sites covered by the vertex or
plaquette mask; a site unmasked by both is returned unchanged — equal to the
input — and is therefore 0 exactly when the input is 0 there (as it is in
any derived syndrome). -/
theorem generate_measurement_error_unmasked_unchanged
    (vm pm : Grid) (p : ℚ) (u : ℕ → ℕ → ℚ) (s : Grid) (i j : ℕ)
    (hv : vm i j = 0) (hp : pm i j = 0) :
    generate_measurement_error vm pm p u s i j = s i j
    ∧ (s i j = 0 → generate_measurement_error vm pm p u s i j = 0) := by
  unfold generate_measurement_error
  rw [hv, hp]
  simp

/-- Witness for C5's amended theorem at a concrete unmasked site. -/
theorem generate_measurement_error_unmasked_unchanged_witness :
    generate_measurement_error vertex_mask_d3 plaquette_mask_d3 1
        (fun _ _ => 0) (fun _ _ => 0) 0 0 = (fun _ _ => (0 : ℕ)) 0 0
    ∧ ((fun _ _ => (0 : ℕ)) 0 0 = 0 →
        generate_measurement_error vertex_mask_d3 plaquette_mask_d3 1
          (fun _ _ => 0) (fun _ _ => 0) 0 0 = 0) :=
  generate_measurement_error_unmasked_unchanged vertex_mask_d3 plaquette_mask_d3 1
    (fun _ _ => 0) (fun _ _ => 0) 0 0 (by decide) (by decide)

/-- The error channel selector of `generate_qubit_error`
(`surface_code.py:244-266`). -/
inductive ErrChannel where
  | x
  | dp
  | iidxz

/-- The random draws consumed while sampling one error slice: two uniform
matrices (the IIDXZ channel draws twice) and one `randint(1, 4)` matrix (the
depolarizing channel's operator choice). -/
structure DrawSlice where
  u1 : ℕ → ℕ → ℚ
  u2 : ℕ → ℕ → ℚ
  ch : ℕ → ℕ → ℕ

/-- Embedding of `SurfaceCode.generate_qubit_error` (`surface_code.py:244-266`):
dispatches to the selected channel's sampler. -/
def generate_qubit_error (c : ErrChannel) (p : ℚ) (dr : DrawSlice) : Grid :=
  match c with
  | ErrChannel.x => generate_qubit_X_error p dr.u1
  | ErrChannel.dp => generate_qubit_DP_error p dr.u1 dr.ch
  | ErrChannel.iidxz => generate_qubit_IIDXZ_error p dr.u1 dr.u2

/-- Embedding of `slice.sum()` over the `(d, d)` shape. -/
def gridSum (d : ℕ) (g : Grid) : ℕ :=
  ((List.range d).map (fun i => ((List.range d).map (fun j => g i j)).sum)).sum

/-- Embedding of `stack.sum()` over the `(h, d, d)` shape. -/
def stackSum (h d : ℕ) (q : Stack) : ℕ :=
  ((List.range h).map (fun t => gridSum d (q t))).sum

/-- The rejection-sampling loop of `SurfaceCode.reset`
(`surface_code.py:341-367`): attempt `k` regenerates the qubit stack from
the per-attempt, per-layer draws `draws k` and recomputes the syndrome
stack; the loop returns the first attempt whose qubit stack has a nonzero
entry sum.  `fuel` bounds the number of attempts inspected: `none` means the
source's `while` loop has not returned within `fuel` attempts. -/
def resetLoop (h d : ℕ) (c : ErrChannel) (p : ℚ) (vm pm : Grid)
    (draws : ℕ → ℕ → DrawSlice) : ℕ → ℕ → Option (Stack × Stack)
  | 0, _ => none
  | fuel + 1, k =>
    if stackSum h d (generate_qubit_error_stack d (fun t => generate_qubit_error c p (draws k t))) ≠ 0 then
      some (generate_qubit_error_stack d (fun t => generate_qubit_error c p (draws k t)),
        create_syndrome_output_stack d vm pm
          (generate_qubit_error_stack d (fun t => generate_qubit_error c p (draws k t))))
    else resetLoop h d c p vm pm draws fuel (k + 1)

/-- Embedding of `SurfaceCode.reset` (`surface_code.py:341-367`), starting at attempt 0. -/
def reset (fuel h d : ℕ) (c : ErrChannel) (p : ℚ) (vm pm : Grid)
    (draws : ℕ → ℕ → DrawSlice) : Option (Stack × Stack) :=
  resetLoop h d c p vm pm draws fuel 0

lemma resetLoop_map_qubit_sum_ne_zero (h d : ℕ) (c : ErrChannel) (p : ℚ)
    (vm pm : Grid) (draws : ℕ → ℕ → DrawSlice) :
    ∀ fuel k, (resetLoop h d c p vm pm draws fuel k).map (fun r => stackSum h d r.1) ≠ some 0 := by
  intro fuel
  induction fuel with
  | zero => intro k; simp [resetLoop]
  | succ fuel ih =>
      intro k
      unfold resetLoop
      split
      · rename_i hne
        intro hcontra
        exact hne (Option.some.inj hcontra)
      · exact ih (k + 1)

lemma generate_qubit_error_p_zero (c : ErrChannel) (dr : DrawSlice)
    (hu1 : ∀ i j, 0 ≤ dr.u1 i j) (hu2 : ∀ i j, 0 ≤ dr.u2 i j) (i j : ℕ) :
    generate_qubit_error c 0 dr i j = 0 := by
  cases c with
  | x =>
      unfold generate_qubit_error generate_qubit_X_error
      dsimp only
      rw [if_neg (not_lt.mpr (hu1 i j))]
  | dp =>
      unfold generate_qubit_error generate_qubit_DP_error
      dsimp only
      rw [if_neg (not_lt.mpr (hu1 i j))]
      exact Nat.zero_mul _
  | iidxz =>
      unfold generate_qubit_error generate_qubit_IIDXZ_error
      dsimp only
      rw [if_neg (not_lt.mpr (hu1 i j)), if_neg (not_lt.mpr (hu2 i j))]
      decide

lemma nonzeroCoords_of_zero (d : ℕ) (g : Grid) (hg : ∀ i j, g i j = 0) :
    nonzeroCoords d g = [] := by
  unfold nonzeroCoords
  rw [List.flatMap_eq_nil_iff]
  intro r _
  rw [List.filterMap_eq_nil_iff]
  intro c _
  simp [hg r c]

lemma combineLayer_of_zero_base (d : ℕ) (base fresh : Grid)
    (hb : ∀ i j, base i j = 0) : combineLayer d base fresh = fresh := by
  unfold combineLayer
  rw [nonzeroCoords_of_zero d base hb]
  rfl

lemma generate_qubit_error_stack_zero (d : ℕ) (errors : ℕ → Grid)
    (he : ∀ t i j, errors t i j = 0) :
    ∀ t i j, generate_qubit_error_stack d errors t i j = 0 := by
  intro t
  induction t with
  | zero => exact he 0
  | succ t ih =>
      have : generate_qubit_error_stack d errors (t + 1)
          = combineLayer d (generate_qubit_error_stack d errors t) (errors (t + 1)) := rfl
      rw [this, combineLayer_of_zero_base d _ _ ih]
      exact he (t + 1)

lemma stackSum_zero (h d : ℕ) (q : Stack) (hq : ∀ t i j, q t i j = 0) :
    stackSum h d q = 0 := by
  unfold stackSum gridSum
  apply List.sum_eq_zero
  intro x hx
  rw [List.mem_map] at hx
  obtain ⟨t, _, hxt⟩ := hx
  subst hxt
  apply List.sum_eq_zero
  intro y hy
  rw [List.mem_map] at hy
  obtain ⟨i, _, hyi⟩ := hy
  subst hyi
  apply List.sum_eq_zero
  intro z hz
  rw [List.mem_map] at hz
  obtain ⟨j, _, hzj⟩ := hz
  subst hzj
  exact hq t i j

/-- C6 amended: (i) whenever the rejection loop of `reset` returns, the
returned QUBIT stack has at least one nonzero entry (its sum is nonzero);
(ii) with `p_error = 0` every attempt samples an all-zero error stack (the
uniform draws are nonnegative), so the loop never returns, for any number of
attempts.  The original claim's third conjunct — that the returned SYNDROME
stack always has a nonzero entry — is refuted separately: `reset` only
checks the qubit stack, and an error pattern forming a logical operator has
an all-zero syndrome. -/
theorem reset_returns_only_with_qubit_error_and_p_zero_diverges :
    (∀ fuel h d c p vm pm draws,
      (reset fuel h d c p vm pm draws).map (fun r => stackSum h d r.1) ≠ some 0)
    ∧ (∀ fuel h d c vm pm draws,
        (∀ k t i j, 0 ≤ (draws k t).u1 i j ∧ 0 ≤ (draws k t).u2 i j) →
        reset fuel h d c 0 vm pm draws = none) := by
  constructor
  · intro fuel h d c p vm pm draws
    exact resetLoop_map_qubit_sum_ne_zero h d c p vm pm draws fuel 0
  · intro fuel h d c vm pm draws hdraws
    unfold reset
    have hz : ∀ k, ∀ t i j,
        generate_qubit_error_stack d (fun t' => generate_qubit_error c 0 (draws k t')) t i j = 0 := by
      intro k
      apply generate_qubit_error_stack_zero
      intro t i j
      exact generate_qubit_error_p_zero c (draws k t)
        (fun i' j' => (hdraws k t i' j').1) (fun i' j' => (hdraws k t i' j').2) i j
    generalize (0 : ℕ) = k0
    induction fuel generalizing k0 with
    | zero => rfl
    | succ fuel ih =>
        unfold resetLoop
        rw [if_neg]
        · exact ih k0.succ
        · simp only [ne_eq, not_not]
          exact stackSum_zero h d _ (hz k0)

/-- Draws for the C6 counterexample: every attempt samples, via the
depolarizing channel at p_error = 1, an X error on each of the three qubits
of row 0 and nothing else (the uniform draw is 0 on row 0 and 1 elsewhere;
the operator choice draw is X everywhere). -/
def c6Draws : ℕ → ℕ → DrawSlice :=
  fun _ _ => ⟨fun i _ => if i = 0 then 0 else 1, fun _ _ => 1, fun _ _ => 1⟩

/-- Counterexample to C6's last conjunct: this `reset` run returns (the
returned qubit stack sums to 3: an X string across row 0, a logical
operator), yet the returned syndrome stack is identically zero — it has no
nonzero entry, because the rejection loop only inspects the qubit stack. -/
theorem reset_can_return_all_zero_syndrome :
    (reset 1 1 3 ErrChannel.dp 1 vertex_mask_d3 plaquette_mask_d3 c6Draws).map
        (fun r => stackSum 1 4 r.2) = some 0
    ∧ (reset 1 1 3 ErrChannel.dp 1 vertex_mask_d3 plaquette_mask_d3 c6Draws).map
        (fun r => stackSum 1 3 r.1) = some 3 := by
  decide

/-- Witness for C6's amended theorem: instantiating conjunct (i) at the
counterexample's draws, and conjunct (ii) at everywhere-zero uniform draws
with p_error = 0, whose nonnegativity hypothesis holds trivially. -/
theorem reset_returns_only_with_qubit_error_and_p_zero_diverges_witness :
    (reset 1 1 3 ErrChannel.dp 1 vertex_mask_d3 plaquette_mask_d3 c6Draws).map
        (fun r => stackSum 1 3 r.1) ≠ some 0
    ∧ reset 5 1 3 ErrChannel.dp 0 vertex_mask_d3 plaquette_mask_d3 c6Draws = none :=
  ⟨reset_returns_only_with_qubit_error_and_p_zero_diverges.1 1 1 3 ErrChannel.dp 1
      vertex_mask_d3 plaquette_mask_d3 c6Draws,
    reset_returns_only_with_qubit_error_and_p_zero_diverges.2 5 1 3 ErrChannel.dp
      vertex_mask_d3 plaquette_mask_d3 c6Draws
      (by
        intro k t i j
        constructor
        · dsimp only [c6Draws]
          split <;> norm_num
        · norm_num [c6Draws])⟩

/-- Embedding of `torch.Tensor.clamp(-c, c)` on a scalar: `min (max x lo) hi`. -/
def clamp (lo hi x : ℚ) : ℚ := min (max x lo) hi

/-- Embedding of `tensor.max(1)[0]` over a row of `n` per-action scores `f 0, ..., f (n-1)`
(`learner_util.py:212`); `n ≥ 1` always holds in the source
(`n = 3·code_size² + 1`). -/
def maxOver (n : ℕ) (f : ℕ → ℚ) : ℚ :=
  (List.range n).foldl (fun m i => max m (f i)) (f 0)

/-- The typed batch handed to `perform_q_learning_step` after `data_to_batch`
(`learner_util.py:179-187`): column-major lists, one entry per sample, plus
the optional importance weights and replay indices.  The action column is
already converted by `action_to_q_value_index` (`learner_util.py:190-196`)
into a flat score index. -/
structure QBatch (S : Type) where
  states : List S
  actions : List ℕ
  rewards : List ℚ
  nextStates : List S
  terminals : List Bool
  weights : Option (List ℚ)
  indices : List ℕ

/-- Embedding of `perform_q_learning_step` (`learner_util.py:145-243`), with the online
and target networks as black-box score functions and the loss `criterion`
as a black-box per-sample function (the source uses a reduction-free torch
criterion: `loss`, `weights * loss` and `np.absolute(loss)` are all
per-sample tensors).  Mirrors the source line by line:
`target_output = max over actions of the frozen target net on next_state`;
`expected_q_values = target_output * (~terminal) * discount_factor`;
`target_q_values = (expected_q_values + reward).clamp(-200, 200)`;
`loss = criterion(target_q_values, policy_output_gathered)`;
`loss = weights * loss` when weights are present;
`priorities = |loss|`.  The optimizer and backward pass mutate only the
network, not the returned `(indices, priorities)`. -/
def perform_q_learning_step {S : Type} (policy target : S → ℕ → ℚ)
    (criterion : ℚ → ℚ → ℚ) (discount_factor : ℚ) (numActions : ℕ)
    (b : QBatch S) : List ℕ × List ℚ :=
  let target_output := b.nextStates.map (fun s => maxOver numActions (target s))
  let expected_q_values :=
    List.zipWith (fun tv (term : Bool) => tv * (if term then 0 else 1) * discount_factor)
      target_output b.terminals
  let target_q_values := List.zipWith (fun e r => e + r) expected_q_values b.rewards
  let clamped := target_q_values.map (clamp (-200) 200)
  let policy_output_gathered := List.zipWith (fun s a => policy s a) b.states b.actions
  let loss := List.zipWith criterion clamped policy_output_gathered
  let weighted :=
    match b.weights with
    | some w => List.zipWith (fun wi l => wi * l) w loss
    | none => loss
  (b.indices, weighted.map (fun l => |l|))

lemma getD_zipWith {α β γ : Type} (f : α → β → γ) (as : List α) (bs : List β)
    (i : ℕ) (d1 : α) (d2 : β) (d3 : γ) (h1 : i < as.length) (h2 : i < bs.length) :
    (List.zipWith f as bs).getD i d3 = f (as.getD i d1) (bs.getD i d2) := by
  rw [List.getD_eq_getElem _ _ (by rw [List.length_zipWith]; omega),
      List.getD_eq_getElem _ _ h1, List.getD_eq_getElem _ _ h2, List.getElem_zipWith]

lemma getD_map_of_lt {α β : Type} (f : α → β) (as : List α) (i : ℕ) (d1 : α) (d2 : β)
    (h : i < as.length) : (as.map f).getD i d2 = f (as.getD i d1) := by
  rw [List.getD_eq_getElem _ _ (by rw [List.length_map]; omega),
      List.getD_eq_getElem _ _ h, List.getElem_map]

/-- C7: each returned priority is the absolute value of the per-sample loss,
where the per-sample training target is
`reward + discount_factor · (max over actions of the frozen target net on
next_state) · (1 - terminal)` clamped to [-200, 200], and the loss is
weighted by the per-sample importance weight when weights are present
(weight 1 otherwise). -/
theorem perform_q_learning_step_priorities {S : Type} (policy target : S → ℕ → ℚ)
    (criterion : ℚ → ℚ → ℚ) (discount_factor : ℚ) (numActions : ℕ)
    (b : QBatch S) (s0 : S) (B i : ℕ)
    (hs : b.states.length = B) (ha : b.actions.length = B)
    (hr : b.rewards.length = B) (hn : b.nextStates.length = B)
    (ht : b.terminals.length = B)
    (hw : ∀ w, b.weights = some w → w.length = B) (hi : i < B) :
    (perform_q_learning_step policy target criterion discount_factor numActions b).2.getD i 0
      = |(match b.weights with | some w => w.getD i 0 | none => 1)
          * criterion
              (clamp (-200) 200
                (b.rewards.getD i 0
                  + discount_factor
                    * maxOver numActions (target (b.nextStates.getD i s0))
                    * (if b.terminals.getD i false then 0 else 1)))
              (policy (b.states.getD i s0) (b.actions.getD i 0))| := by
  have hlt : ∀ {n : ℕ}, n = B → i < n := by intro n hn'; omega
  simp only [perform_q_learning_step]
  rcases hbw : b.weights with _ | w
  · rw [getD_map_of_lt (fun l => |l|) _ i 0 0
        (by simp only [List.length_zipWith, List.length_map, hs, ha, hr, hn, ht,
              min_self]; omega),
      getD_zipWith criterion _ _ i 0 0 0
        (by simp only [List.length_zipWith, List.length_map, hn, ht, hr, min_self]; omega)
        (by simp only [List.length_zipWith, hs, ha, min_self]; omega),
      getD_map_of_lt (clamp (-200) 200) _ i 0 0
        (by simp only [List.length_zipWith, List.length_map, hn, ht, hr, min_self]; omega),
      getD_zipWith (fun e r => e + r) _ _ i 0 0 0
        (by simp only [List.length_zipWith, List.length_map, hn, ht, min_self]; omega)
        (hlt hr),
      getD_zipWith (fun tv (term : Bool) => tv * (if term then 0 else 1) * discount_factor)
        _ _ i 0 false 0 (by simp only [List.length_map, hn]; omega) (hlt ht),
      getD_map_of_lt (fun s => maxOver numActions (target s)) _ i s0 0 (hlt hn),
      getD_zipWith (fun s a => policy s a) _ _ i s0 0 0 (hlt hs) (hlt ha)]
    rw [show ∀ x y z : ℚ, x * y * z + b.rewards.getD i 0
          = b.rewards.getD i 0 + z * x * y from fun x y z => by ring]
    simp
  · have hwB : w.length = B := hw w hbw
    have hlossB : (List.zipWith criterion
        ((List.zipWith (fun e r => e + r)
          (List.zipWith (fun tv (term : Bool) => tv * (if term then 0 else 1) * discount_factor)
            (b.nextStates.map (fun s => maxOver numActions (target s))) b.terminals)
          b.rewards).map (clamp (-200) 200))
        (List.zipWith (fun s a => policy s a) b.states b.actions)).length = B := by
      simp only [List.length_zipWith, List.length_map, hs, ha, hr, hn, ht, min_self]
    rw [getD_map_of_lt (fun l => |l|) _ i 0 0
        (by simp only [List.length_zipWith, hwB, hlossB, min_self]; omega),
      getD_zipWith (fun wi l => wi * l) _ _ i 0 0 0 (hlt hwB) (hlt hlossB),
      getD_zipWith criterion _ _ i 0 0 0
        (by simp only [List.length_zipWith, List.length_map, hn, ht, hr, min_self]; omega)
        (by simp only [List.length_zipWith, hs, ha, min_self]; omega),
      getD_map_of_lt (clamp (-200) 200) _ i 0 0
        (by simp only [List.length_zipWith, List.length_map, hn, ht, hr, min_self]; omega),
      getD_zipWith (fun e r => e + r) _ _ i 0 0 0
        (by simp only [List.length_zipWith, List.length_map, hn, ht, min_self]; omega)
        (hlt hr),
      getD_zipWith (fun tv (term : Bool) => tv * (if term then 0 else 1) * discount_factor)
        _ _ i 0 false 0 (by simp only [List.length_map, hn]; omega) (hlt ht),
      getD_map_of_lt (fun s => maxOver numActions (target s)) _ i s0 0 (hlt hn),
      getD_zipWith (fun s a => policy s a) _ _ i s0 0 0 (hlt hs) (hlt ha)]
    rw [show ∀ x y z : ℚ, x * y * z + b.rewards.getD i 0
          = b.rewards.getD i 0 + z * x * y from fun x y z => by ring]

/-- Concrete online network for the C7 witness. -/
def c7Policy : ℕ → ℕ → ℚ := fun s a => s + a

/-- Concrete frozen target network for the C7 witness. -/
def c7Target : ℕ → ℕ → ℚ := fun _ a => a

/-- Concrete per-sample criterion for the C7 witness. -/
def c7Criterion : ℚ → ℚ → ℚ := fun x y => x - y

/-- Concrete one-sample batch for the C7 witness. -/
def c7Batch : QBatch ℕ := ⟨[0], [0], [3], [5], [false], some [2], [0]⟩

/-- Witness for C7 at a concrete one-sample batch with importance weights. -/
theorem perform_q_learning_step_priorities_witness :
    (perform_q_learning_step c7Policy c7Target c7Criterion (1/2) 2 c7Batch).2.getD 0 0
      = |(match c7Batch.weights with | some w => w.getD 0 0 | none => 1)
          * c7Criterion
              (clamp (-200) 200
                (c7Batch.rewards.getD 0 0
                  + (1/2) * maxOver 2 (c7Target (c7Batch.nextStates.getD 0 0))
                    * (if c7Batch.terminals.getD 0 false then 0 else 1)))
              (c7Policy (c7Batch.states.getD 0 0) (c7Batch.actions.getD 0 0))| :=
  perform_q_learning_step_priorities c7Policy c7Target c7Criterion (1/2) 2 c7Batch 0 1 0
    rfl rfl rfl rfl rfl
    (fun w hw => by injection hw with h; rw [← h]; rfl)
    (by omega)

/-- The tag of a learner-to-actor weight message: the source compares the
received tag against the string "network_update" (`actor.py:483`); any other
tag is embedded as `other`. -/
inductive WTag where
  | networkUpdate
  | other
deriving DecidableEq

/-- Embedding of `queue.get()` iterated: `drainGets n q` performs `n` discarding gets and
then one final get, returning the retrieved message and the remaining queue;
`none` models the blocking get on an exhausted queue. -/
def drainGets {M : Type} : ℕ → List M → Option (M × List M)
  | 0, q =>
    match q with
    | m :: rest => some (m, rest)
    | [] => none
  | n + 1, q =>
    match q with
    | _ :: rest => drainGets n rest
    | [] => none

lemma drainGets_last {M : Type} :
    ∀ q : List M, drainGets (q.length - 1) q = q.getLast?.map (fun m => (m, ([] : List M)))
  | [] => rfl
  | [m] => rfl
  | m :: r :: rs => by
      have h1 : (m :: r :: rs).length - 1 = (r :: rs).length := by
        simp [List.length_cons]
      have h2 : drainGets ((r :: rs).length) (m :: r :: rs) = drainGets ((r :: rs).length - 1) (r :: rs) := by
        simp [drainGets, List.length_cons]
      rw [h1, h2, drainGets_last (r :: rs), List.getLast?_cons_cons]

/-- The weight-sync block of the actor loop (`actor.py:474-489`): when the
learner-to-actor queue is nonempty (`qsize > 0`), the source performs
`qsize - 1` gets whose results are discarded ("consume all the deprecated
updates without effect"), then one final get; the retrieved message and its
parameter payload are asserted non-null, and when the tag is
"network_update" the payload is loaded into the local model.  Returns the
parameter vector in effect after the block and the remaining queue.  A get
on an exhausted queue would block forever (`blockedOnEmptyQueue`;
unreachable when the drained count comes from the queue length). -/
def actor_weight_sync {P : Type} (queue : List (Option WTag × Option P)) (current : P) :
    Except PyError (P × List (Option WTag × Option P)) :=
  if 0 < queue.length then
    match drainGets (queue.length - 1) queue with
    | none => Except.error PyError.blockedOnEmptyQueue
    | some ((msg, params), rest) =>
      match msg with
      | none => Except.error PyError.assertionError
      | some m =>
        match params with
        | none => Except.error PyError.assertionError
        | some p =>
          if m = WTag.networkUpdate then Except.ok (p, rest) else Except.ok (current, rest)
  else Except.ok (current, queue)

/-- C9: at a weight-sync point with k ≥ 1 pending messages whose newest is a
well-formed "network_update" carrying parameters `p`, the actor removes all
k messages (the queue is left empty) and loads exactly `p` — the parameter
vector of the newest message; no superseded message's parameters are ever
applied. -/
theorem actor_weight_sync_latest_wins {P : Type} (queue : List (Option WTag × Option P))
    (current p : P) (hlast : queue.getLast? = some (some WTag.networkUpdate, some p)) :
    actor_weight_sync queue current = Except.ok (p, []) := by
  have hne : queue ≠ [] := by
    intro h
    rw [h] at hlast
    exact Option.noConfusion hlast
  unfold actor_weight_sync
  rw [if_pos (List.length_pos.mpr hne), drainGets_last, hlast]
  rfl

/-- Witness for C9: two pending updates; the actor loads the second (newest)
parameter vector and empties the queue. -/
theorem actor_weight_sync_latest_wins_witness :
    actor_weight_sync
        [(some WTag.networkUpdate, some (1 : ℕ)), (some WTag.networkUpdate, some 2)] 0
      = Except.ok (2, []) :=
  actor_weight_sync_latest_wins
    [(some WTag.networkUpdate, some (1 : ℕ)), (some WTag.networkUpdate, some 2)] 0 2 rfl

/-- Embedding of `len(zip(*batch))`: the arity of the shortest transition tuple in the
batch (0 for an empty batch), which is what the tuple unpacking at
`learner_util.py:83-98` must match. -/
def zipStarLen {α : Type} (batch : List (List α)) : ℕ :=
  match batch.map List.length with
  | [] => 0
  | l :: ls => ls.foldl min l

/-- The control skeleton of `data_to_batch` (`learner_util.py:20-141`):
`assert batch is not None and len(batch) == batch_size`
(`learner_util.py:65`); when importance weights are present,
`assert len(memory_weights) == batch_size` (`learner_util.py:70`); then the
transition tuples are unpacked into 9 columns (`rl_type == "v"`) or 5
columns.  When the unpack arity does not match, the `ValueError` is caught
by the bare `except:` (`learner_util.py:99-100`) which only prints — but the
column variables are then left unbound, so the first later use of
`list_state` (`learner_util.py:102`) raises `UnboundLocalError`: the
violation still aborts, it is not silently absorbed.  On success the typed
columns are produced (tensor conversion and device placement are identity
here). -/
def data_to_batch {α : Type} (data : Option (List (List α)) × Option (List ℚ) × List ℕ)
    (batch_size : ℕ) (vtype : Bool) :
    Except PyError (List (List α) × Option (List ℚ) × List ℕ) :=
  match data.1 with
  | none => Except.error PyError.assertionError
  | some batch =>
    if batch.length ≠ batch_size then Except.error PyError.assertionError
    else
      match data.2.1 with
      | some w =>
        if w.length ≠ batch_size then Except.error PyError.assertionError
        else
          if zipStarLen batch ≠ (if vtype then 9 else 5) then
            Except.error PyError.unboundLocalError
          else Except.ok (batch, some w, data.2.2)
      | none =>
        if zipStarLen batch ≠ (if vtype then 9 else 5) then
          Except.error PyError.unboundLocalError
        else Except.ok (batch, none, data.2.2)

/-- C8: every protocol violation aborts with an error instead of being
silently absorbed: a weight message with a null payload fails the actor's
assertion; a batch whose transition-list length differs from `batch_size`
fails `data_to_batch`'s assertion, as does an importance-weight list of the
wrong length; and a transition tuple that cannot be unpacked into the
expected columns raises (the swallowed `ValueError` resurfaces as
`UnboundLocalError` at the first use of the unbound column). -/
theorem protocol_violations_raise :
    (∀ (P : Type) (queue : List (Option WTag × Option P)) (current : P) (m : Option WTag),
        queue.getLast? = some (m, none) →
        actor_weight_sync queue current = Except.error PyError.assertionError)
    ∧ (∀ (α : Type) (batch : List (List α)) (w : Option (List ℚ)) (idx : List ℕ)
          (bs : ℕ) (v : Bool), batch.length ≠ bs →
        data_to_batch (some batch, w, idx) bs v = Except.error PyError.assertionError)
    ∧ (∀ (α : Type) (batch : List (List α)) (w : List ℚ) (idx : List ℕ)
          (bs : ℕ) (v : Bool), batch.length = bs → w.length ≠ bs →
        data_to_batch (some batch, some w, idx) bs v = Except.error PyError.assertionError)
    ∧ (∀ (α : Type) (batch : List (List α)) (w : Option (List ℚ)) (idx : List ℕ)
          (bs : ℕ) (v : Bool), batch.length = bs →
        (∀ wl, w = some wl → wl.length = bs) →
        zipStarLen batch ≠ (if v then 9 else 5) →
        data_to_batch (some batch, w, idx) bs v = Except.error PyError.unboundLocalError) := by
  refine ⟨?_, ?_, ?_, ?_⟩
  · intro P queue current m hlast
    have hne : queue ≠ [] := by
      intro h
      rw [h] at hlast
      exact Option.noConfusion hlast
    unfold actor_weight_sync
    rw [if_pos (List.length_pos.mpr hne), drainGets_last, hlast]
    rcases m with _ | tag <;> rfl
  · intro α batch w idx bs v h
    unfold data_to_batch
    dsimp only
    rw [if_pos h]
  · intro α batch w idx bs v hb hw
    unfold data_to_batch
    dsimp only
    rw [if_neg (by omega), if_pos hw]
  · intro α batch w idx bs v hb hw hz
    unfold data_to_batch
    dsimp only
    rw [if_neg (show ¬(batch.length ≠ bs) by omega)]
    rcases w with _ | wl
    · dsimp only
      rw [if_pos hz]
    · dsimp only
      rw [if_neg (show ¬(wl.length ≠ bs) by simpa using hw wl rfl), if_pos hz]

/-- Witness for C8: each violation fires at a concrete input — a null
payload in the newest weight message, a 1-transition batch against
batch_size 2, a 2-entry weight list against batch_size 1, and 3-tuples where
5 columns are expected. -/
theorem protocol_violations_raise_witness :
    actor_weight_sync [(some WTag.networkUpdate, (none : Option ℕ))] 0
        = Except.error PyError.assertionError
    ∧ data_to_batch (some [[1, 2, 3, 4, 5]], (none : Option (List ℚ)), ([] : List ℕ)) 2 false
        = Except.error PyError.assertionError
    ∧ data_to_batch (some [[1, 2, 3, 4, 5]], some [(1 : ℚ), 2], ([] : List ℕ)) 1 false
        = Except.error PyError.assertionError
    ∧ data_to_batch (some [[1, 2, 3]], (none : Option (List ℚ)), ([] : List ℕ)) 1 false
        = Except.error PyError.unboundLocalError :=
  ⟨protocol_violations_raise.1 ℕ [(some WTag.networkUpdate, none)] 0
      (some WTag.networkUpdate) rfl,
    protocol_violations_raise.2.1 ℕ [[1, 2, 3, 4, 5]] none [] 2 false (by decide),
    protocol_violations_raise.2.2.1 ℕ [[1, 2, 3, 4, 5]] [1, 2] [] 1 false (by decide) (by decide),
    protocol_violations_raise.2.2.2 ℕ [[1, 2, 3]] none [] 1 false (by decide)
      (fun wl hwl => Option.noConfusion hwl) (by decide)⟩
